import Mathlib

/-!
Verification of the agent state and sensor-pose synchronization model of
`habitat_sim/agent/agent.py`.

The Python layer keeps an agent's base transform and a set of named sensor
nodes (children of the body node) consistent.  Numeric state (numpy floats)
is embedded with exact rationals; magnum/numpy quaternions are embedded as a
single quaternion type over the rationals, so the conversion helpers
`quat_from_magnum` / `quat_to_magnum` are identities in the model.  The body
node is taken as a direct child of the hierarchy root with the identity
transform, as in the simulator's default agent setup, so the body node's
absolute translation coincides with its local translation.

Python's reference semantics, where the claims need them, are embedded with an
explicit heap: `AgentState` objects and the `SixDOFPose` objects held in their
`sensor_states` dict live at numeric addresses, and `Agent.set_state` receives
the address of its argument.
-/

namespace HabitatAgent

/-- A 3-component numeric vector (embeds `np.ndarray` of shape 3). -/
@[ext] structure Vec3 where
  x : ℚ
  y : ℚ
  z : ℚ
  deriving DecidableEq, Repr

instance : Add Vec3 := ⟨fun a b => ⟨a.x + b.x, a.y + b.y, a.z + b.z⟩⟩
instance : Sub Vec3 := ⟨fun a b => ⟨a.x - b.x, a.y - b.y, a.z - b.z⟩⟩

def Vec3.zero : Vec3 := ⟨0, 0, 0⟩

theorem Vec3.zero_add (v : Vec3) : Vec3.zero + v = v := by
  cases v
  show Vec3.mk _ _ _ = _
  simp [Vec3.zero]

/-- A quaternion with rational components, scalar part first (embeds both
`np.quaternion(w, x, y, z)` and `mn.Quaternion`). -/
@[ext] structure Quat where
  w : ℚ
  x : ℚ
  y : ℚ
  z : ℚ
  deriving DecidableEq, Repr

namespace Quat

/-- The identity rotation `np.quaternion(1, 0, 0, 0)`. -/
def one : Quat := ⟨1, 0, 0, 0⟩

/-- Hamilton product. -/
def mul (a b : Quat) : Quat :=
  ⟨a.w * b.w - a.x * b.x - a.y * b.y - a.z * b.z,
   a.w * b.x + a.x * b.w + a.y * b.z - a.z * b.y,
   a.w * b.y - a.x * b.z + a.y * b.w + a.z * b.x,
   a.w * b.z + a.x * b.y - a.y * b.x + a.z * b.w⟩

/-- Conjugate quaternion. -/
def conj (a : Quat) : Quat := ⟨a.w, -a.x, -a.y, -a.z⟩

/-- Squared norm. -/
def normSq (a : Quat) : ℚ := a.w * a.w + a.x * a.x + a.y * a.y + a.z * a.z

/-- Componentwise scaling. -/
def scale (c : ℚ) (a : Quat) : Quat := ⟨c * a.w, c * a.x, c * a.y, c * a.z⟩

/-- Quaternion inverse as numpy-quaternion computes it: conjugate divided by
the squared norm. -/
def inverse (a : Quat) : Quat := scale (1 / normSq a) (conj a)

theorem mul_one (a : Quat) : mul a one = a := by
  cases a
  simp [mul, one]

theorem normSq_scale (c : ℚ) (a : Quat) :
    normSq (scale c a) = c * c * normSq a := by
  cases a
  simp only [normSq, scale]
  ring

end Quat

/-- Integer square root by bounded search (kept structural so concrete
witnesses evaluate inside the kernel). -/
def natSqrt (n : Nat) : Nat :=
  ((List.range (n + 1)).filter (fun k => k * k ≤ n)).getLastD 0

/-- Exact rational square root used to state normalization: on inputs whose
numerator and denominator are perfect squares it returns the exact square
root (the floating-point code computes `sqrt` approximately; the theorems
carry the exactness hypothesis). -/
def ratSqrt (q : ℚ) : ℚ := (natSqrt q.num.toNat : ℚ) / (natSqrt q.den : ℚ)

/-- Reordering of a coefficient list `[x, y, z, w]` into a quaternion with
the scalar part first, as `quaternion.quaternion(coeffs[3], coeffs[0],
coeffs[1], coeffs[2])` does. -/
def quatOfCoeffs (c : List ℚ) : Quat :=
  ⟨c.getD 3 0, c.getD 0 0, c.getD 1 0, c.getD 2 0⟩

/-- Modelled from the spec: `quat_from_coeffs` (in `habitat_sim/utils/common.py`,
outside the sampled sources) turns a coefficient sequence `[x, y, z, w]` into a
quaternion; per the spec a rotation arriving as a raw coefficient sequence "is
normalized into a unit quaternion before use". -/
def quat_from_coeffs (c : List ℚ) : Quat :=
  Quat.scale (1 / ratSqrt (Quat.normSq (quatOfCoeffs c))) (quatOfCoeffs c)

/-- Modelled from the spec: `quat_rotate_vector` (in
`habitat_sim/utils/common.py`, outside the sampled sources) rotates a vector
by a quaternion, `(q * (0, v) * q.inverse()).vec`. -/
def quat_rotate_vector (q : Quat) (v : Vec3) : Vec3 :=
  let p := Quat.mul (Quat.mul q ⟨0, v.x, v.y, v.z⟩) (Quat.inverse q)
  ⟨p.x, p.y, p.z⟩

/-- Conversion from a magnum quaternion; the model uses one quaternion type,
so this is the identity. -/
def quat_from_magnum (q : Quat) : Quat := q

/-- Conversion to a magnum quaternion; the model uses one quaternion type,
so this is the identity. -/
def quat_to_magnum (q : Quat) : Quat := q

/-- A rotation as it may sit in an `AgentState` or `SixDOFPose`: either
already a quaternion or a raw coefficient sequence `[x, y, z, w]`. -/
inductive RotInput where
  | quat (q : Quat)
  | coeffs (c : List ℚ)
  deriving DecidableEq, Repr

/-- The quaternion a `RotInput` denotes once converted. -/
def asQuat : RotInput → Quat
  | .quat q => q
  | .coeffs c => quat_from_coeffs c

/-- The local transform of a scene-graph node: translation and rotation
(the transformation kinds `reset_transformation`, `translate` and the
`rotation` setter touch). -/
@[ext] structure NodeT where
  translation : Vec3
  rotation : Quat
  deriving DecidableEq, Repr

namespace NodeT

/-- Result of `node.reset_transformation()`: the identity transform. -/
def reset : NodeT := ⟨Vec3.zero, Quat.one⟩

/-- Effect of `node.translate(v)`: translates in the parent frame. -/
def translate (n : NodeT) (v : Vec3) : NodeT := ⟨n.translation + v, n.rotation⟩

/-- Effect of `node.rotation = q`: replaces the rotation part. -/
def setRotation (n : NodeT) (q : Quat) : NodeT := ⟨n.translation, q⟩

/-- Applying the node's transform to a point of its local frame; a child
node's absolute translation is its parent's transform applied to the child's
local translation. -/
def applyTo (n : NodeT) (v : Vec3) : Vec3 :=
  n.translation + quat_rotate_vector n.rotation v

end NodeT

/-- Association-list lookup, the model of `dict` lookup / `in`. -/
def assocFind {α : Type} (k : String) : List (String × α) → Option α
  | [] => none
  | p :: rest => if p.1 = k then some p.2 else assocFind k rest

/-- Association-list value update at a key (no-op for absent keys). -/
def assocUpdate {α : Type} (k : String) (f : α → α) :
    List (String × α) → List (String × α)
  | [] => []
  | p :: rest =>
      if p.1 = k then (p.1, f p.2) :: assocUpdate k f rest
      else p :: assocUpdate k f rest

/-- In-place list update at an index (no-op when out of range). -/
def updIdx {α : Type} : List α → Nat → α → List α
  | [], _, _ => []
  | _ :: rest, 0, a => a :: rest
  | b :: rest, n + 1, a => b :: updIdx rest n a

theorem assocFind_update_ne {α : Type} (k k' : String) (f : α → α)
    (l : List (String × α)) (h : k' ≠ k) :
    assocFind k (assocUpdate k' f l) = assocFind k l := by
  induction l with
  | nil => rfl
  | cons p rest ih =>
      by_cases hp : p.1 = k'
      · have hk : ¬ p.1 = k := by rw [hp]; exact h
        simp [assocUpdate, assocFind, hp, hk, h, ih]
      · simp only [assocUpdate, hp, if_neg, not_false_iff, assocFind]
        by_cases hk : p.1 = k
        · simp [hk]
        · simp [hk, ih]

theorem assocFind_update_self {α : Type} (k : String) (f : α → α)
    (l : List (String × α)) :
    assocFind k (assocUpdate k f l) = (assocFind k l).map f := by
  induction l with
  | nil => rfl
  | cons p rest ih =>
      by_cases hp : p.1 = k
      · simp [assocUpdate, assocFind, hp, ih]
      · simp [assocUpdate, assocFind, hp, ih]

theorem assocFind_map {α β : Type} (k : String) (g : α → β)
    (l : List (String × α)) :
    assocFind k (l.map (fun p => (p.1, g p.2))) = (assocFind k l).map g := by
  induction l with
  | nil => rfl
  | cons p rest ih =>
      by_cases hp : p.1 = k
      · simp [assocFind, hp]
      · simp [assocFind, hp, ih]

theorem updIdx_length {α : Type} (l : List α) (i : Nat) (a : α) :
    (updIdx l i a).length = l.length := by
  induction l generalizing i with
  | nil => rfl
  | cons b rest ih =>
      cases i with
      | zero => rfl
      | succ n => simp [updIdx, ih]

theorem getD_updIdx_ne {α : Type} (l : List α) (i j : Nat) (a d : α)
    (h : j ≠ i) : (updIdx l i a).getD j d = l.getD j d := by
  induction l generalizing i j with
  | nil => rfl
  | cons b rest ih =>
      cases i with
      | zero =>
          cases j with
          | zero => exact absurd rfl h
          | succ m => rfl
      | succ n =>
          cases j with
          | zero => rfl
          | succ m =>
              simp only [updIdx, List.getD]
              exact ih n m (fun hc => h (by rw [hc]))

theorem getD_updIdx_self {α : Type} (l : List α) (i : Nat) (a d : α)
    (h : i < l.length) : (updIdx l i a).getD i d = a := by
  induction l generalizing i with
  | nil => exact absurd h (by simp)
  | cons b rest ih =>
      cases i with
      | zero => rfl
      | succ n =>
          simp only [updIdx, List.getD]
          exact ih n (by simpa using h)

/-! Data model of `agent.py`. -/

/-- Modelled from the spec: a sensor specification (`hsim.SensorSpec`, native
code outside the sampled sources) carries a unique sensor name and the
sensor's configured default transform relative to the agent's body. -/
structure SensorSpec where
  uuid : String
  transform : NodeT
  deriving DecidableEq, Repr

/-- An attached sensor: its scene-graph node (a child of the body node) plus
the default transform recorded by its specification. -/
structure Sensor where
  specDefault : NodeT
  node : NodeT
  deriving DecidableEq, Repr

/-- Modelled from the spec: `set_transformation_from_spec` (sensor code
outside the sampled sources) resets a sensor's transform "to its configured
default (as defined by its original specification)". -/
def Sensor.set_transformation_from_spec (s : Sensor) : Sensor :=
  { s with node := s.specDefault }

/-- Arguments passed to the function implementing an action. -/
structure ActuationSpec where
  amount : ℚ
  deriving DecidableEq, Repr

/-- Defines how a specific action is implemented. -/
structure ActionSpec where
  name : String
  actuation : Option ActuationSpec
  deriving DecidableEq, Repr

/-- The default action space of `AgentConfiguration`. -/
def _default_action_space : List (String × ActionSpec) :=
  [("move_forward", ⟨"move_forward", some ⟨1/4⟩⟩),
   ("turn_left", ⟨"turn_left", some ⟨10⟩⟩),
   ("turn_right", ⟨"turn_right", some ⟨10⟩⟩)]

/-- Static agent parameters, the sensor specification list and the action
space (numeric defaults involving floats such as `4 * np.pi` are not needed
by any claim and carry no distinguished value in the model). -/
structure AgentConfiguration where
  height : ℚ
  radius : ℚ
  mass : ℚ
  linear_acceleration : ℚ
  angular_acceleration : ℚ
  linear_friction : ℚ
  angular_friction : ℚ
  coefficient_of_restitution : ℚ
  sensor_specifications : List SensorSpec
  action_space : List (String × ActionSpec)
  body_type : String
  deriving DecidableEq, Repr

/-- Value-level pose as `get_state` produces it (`SixDOFPose` with the
rotation already a quaternion). -/
structure PoseV where
  position : Vec3
  rotation : Quat
  deriving DecidableEq, Repr

/-- Value-level `AgentState` as `get_state` constructs it: base pose, the
kinematic fields (left at their zero defaults by `get_state`) and one pose
per attached sensor. -/
structure AgentStateV where
  position : Vec3
  rotation : Quat
  velocity : Vec3
  angular_velocity : Vec3
  force : Vec3
  torque : Vec3
  sensor_states : List (String × PoseV)
  deriving DecidableEq, Repr

/-- Errors of the error taxonomy: invalid scene-graph object
(`assert_obj_valid`), unknown action id, unknown sensor name. -/
inductive AgentError where
  | invalidObject
  | unknownAction
  | unknownSensor
  deriving DecidableEq, Repr

instance {ε α : Type} [DecidableEq ε] [DecidableEq α] :
    DecidableEq (Except ε α) := fun a b =>
  match a, b with
  | .ok x, .ok y =>
      if h : x = y then .isTrue (by rw [h]) else .isFalse (by simp [h])
  | .error x, .error y =>
      if h : x = y then .isTrue (by rw [h]) else .isFalse (by simp [h])
  | .ok _, .error _ => .isFalse (by simp)
  | .error _, .ok _ => .isFalse (by simp)

/-- The agent: validity of the non-owned body node (what
`habitat_sim.errors.assert_obj_valid(self.body)` checks), the body node's
transform, the attached sensors keyed by name (`SensorSuite`), the stored
configuration, and the recorded initial state (an address into the heap of
`AgentState` objects, since the source stores a reference). -/
structure Agent where
  valid : Bool
  body : NodeT
  sensors : List (String × Sensor)
  agent_config : AgentConfiguration
  initial_state : Option Nat
  deriving DecidableEq, Repr

/-! Heap of Python state objects.  `set_state` mutates its argument, so the
`AgentState` passed to it is embedded as an address into a store of state
objects, and each `SixDOFPose` held in a `sensor_states` dict as an address
into a store of pose objects. -/

/-- A `SixDOFPose` object on the heap. -/
structure PoseObj where
  position : Vec3
  rotation : RotInput
  deriving DecidableEq, Repr

/-- An `AgentState` object on the heap; `sensor_states` maps sensor names to
addresses of `SixDOFPose` objects. -/
structure StateObj where
  position : Vec3
  rotation : RotInput
  velocity : Vec3
  angular_velocity : Vec3
  force : Vec3
  torque : Vec3
  sensor_states : List (String × Nat)
  deriving DecidableEq, Repr

def defaultPoseObj : PoseObj := ⟨Vec3.zero, .quat Quat.one⟩

def defaultStateObj : StateObj :=
  ⟨Vec3.zero, .quat Quat.one, Vec3.zero, Vec3.zero, Vec3.zero, Vec3.zero, []⟩

/-- The heap: stores of `AgentState` and `SixDOFPose` objects. -/
structure Heap where
  states : List StateObj
  poses : List PoseObj
  deriving DecidableEq, Repr

def readState (h : Heap) (a : Nat) : StateObj := h.states.getD a defaultStateObj

def writeState (h : Heap) (a : Nat) (st : StateObj) : Heap :=
  { h with states := updIdx h.states a st }

def getPose (poses : List PoseObj) (a : Nat) : PoseObj := poses.getD a defaultPoseObj

/-- The rotation coercion the explicit-placement loop performs on a pose:
`if isinstance(v.rotation, list): v.rotation = quat_from_coeffs(v.rotation)`. -/
def convertPose (v : PoseObj) : PoseObj :=
  match v.rotation with
  | .coeffs c => { v with rotation := .quat (quat_from_coeffs c) }
  | .quat _ => v

/-- The rotation coercion `set_state` performs on its argument:
`if isinstance(state.rotation, (list, np.ndarray)): state.rotation =
quat_from_coeffs(state.rotation)`. -/
def convertState (st : StateObj) : StateObj :=
  match st.rotation with
  | .coeffs c => { st with rotation := .quat (quat_from_coeffs c) }
  | .quat _ => st

/-- The heap effect of that coercion: the assignment `state.rotation = ...`
writes the argument object in place, and happens only in the
coefficient-sequence case. -/
def writeBackState (h : Heap) (sa : Nat) (st0 : StateObj) : Heap :=
  match st0.rotation with
  | .coeffs _ => writeState h sa (convertState st0)
  | .quat _ => h

/-! Operations of `Agent`. -/

/-- Operation `get_state`: body absolute pose plus, per attached sensor, the sensor
node's absolute translation and the base rotation composed with the sensor
node's local rotation. -/
def get_state (ag : Agent) : Except AgentError AgentStateV :=
  if ag.valid = false then .error .invalidObject else
  .ok { position := ag.body.translation
        rotation := quat_from_magnum ag.body.rotation
        velocity := Vec3.zero
        angular_velocity := Vec3.zero
        force := Vec3.zero
        torque := Vec3.zero
        sensor_states := ag.sensors.map (fun p =>
          (p.1, { position := ag.body.applyTo p.2.node.translation
                  rotation := quat_from_magnum
                    (Quat.mul ag.body.rotation p.2.node.rotation) })) }

/-- Result of `act`. -/
structure ActOut where
  agent : Agent
  collided : Option Bool
  err : Option AgentError
  deriving Repr

/-- Operation `act`: validity check, then the action-space membership assertion, then
the dispatch body.  The dispatch body (body / interact / sensor branches,
source lines 167-232) drives the `ObjectControls` and `Simulator`
collaborators, which are outside the sampled sources, so it is a parameter
`dispatch` of the model; the claims about `act` concern only the guards. -/
def act (dispatch : Agent → ActionSpec → Agent × Bool) (ag : Agent)
    (action_id : String) : ActOut :=
  if ag.valid = false then ⟨ag, none, some .invalidObject⟩ else
  match assocFind action_id ag.agent_config.action_space with
  | none => ⟨ag, none, some .unknownAction⟩
  | some a =>
      let r := dispatch ag a
      ⟨r.1, some r.2, none⟩

/-- Result of `reconfigure`. -/
structure ReconfOut where
  agent : Agent
  err : Option AgentError
  deriving Repr

/-- Operation `reconfigure`: validity check, store the new configuration, and when
`reconfigure_sensors` is true tear down every sensor and attach one fresh
sensor per specification entry at its configured default transform. -/
def reconfigure (ag : Agent) (cfg : AgentConfiguration)
    (reconfigure_sensors : Bool) : ReconfOut :=
  if ag.valid = false then ⟨ag, some .invalidObject⟩ else
  let ag1 := { ag with agent_config := cfg }
  if reconfigure_sensors then
    ⟨{ ag1 with sensors := cfg.sensor_specifications.map (fun spec =>
        (spec.uuid, { specDefault := spec.transform, node := spec.transform })) },
     none⟩
  else ⟨ag1, none⟩

/-- The transform the explicit-placement loop gives a named sensor node:
reset to identity, translate by the inverse base rotation applied to the
sensor position offset, set the rotation to inverse base rotation times the
sensor rotation. -/
def placedNode (basePos : Vec3) (baseRot : Quat) (v : PoseObj) : NodeT :=
  NodeT.setRotation
    (NodeT.translate NodeT.reset
      (quat_rotate_vector (Quat.inverse baseRot) (v.position - basePos)))
    (quat_to_magnum (Quat.mul (Quat.inverse baseRot) (asQuat v.rotation)))

/-- Result of the explicit-placement loop. -/
structure PlaceOut where
  poses : List PoseObj
  sensors : List (String × Sensor)
  err : Option AgentError
  deriving Repr

/-- The heap effect on one dict entry: the assignment `v.rotation = ...`
writes the pose object in place, and happens only when the rotation is a
coefficient list. -/
def placeStepPoses (poses : List PoseObj) (pa : Nat) : List PoseObj :=
  match (getPose poses pa).rotation with
  | .coeffs _ => updIdx poses pa (convertPose (getPose poses pa))
  | .quat _ => poses

/-- The `if not infer_sensor_states` loop of `set_state`: walks the
`sensor_states` dict entries in order; asserts the name is attached
(stopping there with the mutations so far kept, as a raised assertion does),
converts the pose's rotation in place when it is a coefficient list, and
sets the sensor node's transform. -/
def placePass (basePos : Vec3) (baseRot : Quat) :
    List PoseObj → List (String × Sensor) → List (String × Nat) → PlaceOut
  | poses, sens, [] => ⟨poses, sens, none⟩
  | poses, sens, (k, pa) :: rest =>
      match assocFind k sens with
      | none => ⟨poses, sens, some .unknownSensor⟩
      | some _ =>
          placePass basePos baseRot (placeStepPoses poses pa)
            (assocUpdate k
              (fun s =>
                { s with node := placedNode basePos baseRot (convertPose (getPose poses pa)) })
              sens)
            rest

/-- Result of `set_state`: the heap (the argument object and its poses may
have been mutated), the agent, and the error if one was raised. -/
structure SetOut where
  heap : Heap
  agent : Agent
  err : Option AgentError
  deriving Repr

/-- Operation `set_state`, taking the address `sa` of the `AgentState` argument:
validity check; in-place conversion of a coefficient-list rotation; body
reset / translate / set-rotation; optional default reset of every sensor;
optional explicit placement of every sensor named in `sensor_states`; and,
when no assertion fired, recording of the argument (by reference) as the
initial state when `is_initial` is set. -/
def set_state (h : Heap) (ag : Agent) (sa : Nat)
    (reset_sensors : Bool) (infer_sensor_states : Bool) (is_initial : Bool) :
    SetOut :=
  if ag.valid = false then ⟨h, ag, some .invalidObject⟩ else
  let st := convertState (readState h sa)
  let h1 := writeBackState h sa (readState h sa)
  let r := asQuat st.rotation
  let body := NodeT.setRotation (NodeT.translate NodeT.reset st.position)
    (quat_to_magnum r)
  let sens1 := if reset_sensors then
      ag.sensors.map (fun p => (p.1, p.2.set_transformation_from_spec))
    else ag.sensors
  if infer_sensor_states then
    ⟨h1,
     { ag with body := body, sensors := sens1,
               initial_state := if is_initial then some sa else ag.initial_state },
     none⟩
  else
    let out := placePass st.position r h1.poses sens1 st.sensor_states
    match out.err with
    | some e =>
        ⟨{ h1 with poses := out.poses },
         { ag with body := body, sensors := out.sensors }, some e⟩
    | none =>
        ⟨{ h1 with poses := out.poses },
         { ag with body := body, sensors := out.sensors,
                   initial_state := if is_initial then some sa else ag.initial_state },
         none⟩

/-- Allocation of the object graph `get_state` returns: one fresh
`SixDOFPose` object per sensor entry and one fresh `AgentState` object
referencing them; returns the heap and the state object's address. -/
def allocState (S : AgentStateV) : Heap × Nat :=
  ({ states := [{ position := S.position
                  rotation := .quat S.rotation
                  velocity := S.velocity
                  angular_velocity := S.angular_velocity
                  force := S.force
                  torque := S.torque
                  sensor_states := S.sensor_states.enum.map (fun p => (p.2.1, p.1)) }]
     poses := S.sensor_states.map (fun p =>
       { position := p.2.position, rotation := .quat p.2.rotation }) },
   0)

/-! Default-sharing model for the `attrs` classes.  A class-body default
expression such as `np.zeros(3)` (source lines 57 and 63) is evaluated once,
when the class object is created; constructing an instance with the default
then binds the attribute to that very array object.  Fields declared with
`attr.Factory(dict)` (line 69) instead call the factory at each construction
and get a fresh object. -/

/-- A store of numpy arrays, addressed by allocation order. -/
structure ArrayHeap where
  cells : List Vec3
  deriving DecidableEq, Repr

def ArrayHeap.alloc (h : ArrayHeap) (v : Vec3) : ArrayHeap × Nat :=
  (⟨h.cells ++ [v]⟩, h.cells.length)

def ArrayHeap.read (h : ArrayHeap) (a : Nat) : Vec3 := h.cells.getD a Vec3.zero

/-- In-place mutation of an array, e.g. `arr[1] = 2.0` or `arr += v`. -/
def ArrayHeap.write (h : ArrayHeap) (a : Nat) (v : Vec3) : ArrayHeap :=
  ⟨updIdx h.cells a v⟩

/-- The arrays produced by evaluating the class bodies of `SixDOFPose` and
`AgentState` at import time: one `np.zeros(3)` default per class. -/
structure ClassDefaults where
  heap : ArrayHeap
  sixdof_position_default : Nat
  agentstate_position_default : Nat
  deriving Repr

/-- Import of the module: each class's `position` default array is allocated
exactly once. -/
def moduleInit : ClassDefaults :=
  let r1 := ArrayHeap.alloc ⟨[]⟩ Vec3.zero
  let r2 := ArrayHeap.alloc r1.1 Vec3.zero
  ⟨r2.1, r1.2, r2.2⟩

/-- Reference-level view of an `AgentState` instance: the address of the
array bound to `position` and the identity of the dict bound to
`sensor_states`. -/
structure AgentStateRefs where
  position : Nat
  sensor_states : Nat
  deriving DecidableEq, Repr

/-- Reference-level view of a `SixDOFPose` instance. -/
structure SixDOFPoseRefs where
  position : Nat
  deriving DecidableEq, Repr

/-- Constructing `AgentState()` with all defaults: `position` is bound to the class's
stored default array itself; `sensor_states` is bound to a fresh dict from
the factory (`nextDictId` tracks dict identities). -/
def mkAgentStateDefault (d : ClassDefaults) (nextDictId : Nat) :
    AgentStateRefs × Nat :=
  (⟨d.agentstate_position_default, nextDictId⟩, nextDictId + 1)

/-- Constructing `SixDOFPose()` with all defaults: `position` is bound to the class's
stored default array itself. -/
def mkSixDOFPoseDefault (d : ClassDefaults) : SixDOFPoseRefs :=
  ⟨d.sixdof_position_default⟩

/-! Concrete sample objects used by the witnesses and counterexamples. -/

/-- A sample configuration (numeric values arbitrary). -/
def exConfig : AgentConfiguration :=
  ⟨3/2, 1/10, 32, 20, 12, 1/2, 1, 0, [⟨"rgb", NodeT.reset⟩],
   _default_action_space, "cylinder"⟩

/-- A sample sensor sitting at its configured default transform. -/
def exSensor : Sensor :=
  ⟨⟨⟨0, 3/2, 0⟩, Quat.one⟩, ⟨⟨0, 3/2, 0⟩, Quat.one⟩⟩

/-- A live sample agent with one attached sensor. -/
def exAgent : Agent := ⟨true, NodeT.reset, [("rgb", exSensor)], exConfig, none⟩

/-- A sample agent whose body node's owning hierarchy has been torn down. -/
def exInvalidAgent : Agent :=
  ⟨false, NodeT.reset, [("rgb", exSensor)], exConfig, none⟩

/-- A sample heap with one state object. -/
def exHeap : Heap :=
  ⟨[⟨Vec3.zero, .quat Quat.one, Vec3.zero, Vec3.zero, Vec3.zero, Vec3.zero, []⟩],
   []⟩

/-! Helper lemmas. -/

theorem Vec3.add_def (a b : Vec3) : a + b = ⟨a.x + b.x, a.y + b.y, a.z + b.z⟩ := rfl

theorem Vec3.sub_def (a b : Vec3) : a - b = ⟨a.x - b.x, a.y - b.y, a.z - b.z⟩ := rfl

theorem convertState_position (st : StateObj) :
    (convertState st).position = st.position := by
  cases h : st.rotation <;> simp [convertState, h]

theorem convertState_sensor_states (st : StateObj) :
    (convertState st).sensor_states = st.sensor_states := by
  cases h : st.rotation <;> simp [convertState, h]

theorem asQuat_convertState (st : StateObj) :
    asQuat (convertState st).rotation = asQuat st.rotation := by
  cases h : st.rotation <;> simp [convertState, asQuat, h]

theorem convertPose_of_quat (v : PoseObj) (q : Quat) (h : v.rotation = .quat q) :
    convertPose v = v := by
  simp [convertPose, h]

theorem writeBackState_poses (h : Heap) (sa : Nat) (st0 : StateObj) :
    (writeBackState h sa st0).poses = h.poses := by
  cases hr : st0.rotation <;> simp [writeBackState, writeState, hr]

theorem writeBackState_states_length (h : Heap) (sa : Nat) (st0 : StateObj) :
    (writeBackState h sa st0).states.length = h.states.length := by
  cases hr : st0.rotation <;> simp [writeBackState, writeState, hr, updIdx_length]

theorem readState_writeBackState (h : Heap) (sa : Nat)
    (hsa : sa < h.states.length) :
    readState (writeBackState h sa (readState h sa)) sa
      = convertState (readState h sa) := by
  generalize hst : readState h sa = st
  cases hr : st.rotation with
  | coeffs c =>
      unfold writeBackState
      rw [hr]
      show readState (writeState h sa (convertState st)) sa = convertState st
      unfold readState writeState
      exact getD_updIdx_self _ _ _ _ hsa
  | quat q =>
      unfold writeBackState
      rw [hr]
      show readState h sa = convertState st
      rw [hst]
      simp [convertState, hr]

theorem assocFind_update_none {α : Type} (k k' : String) (f : α → α)
    (l : List (String × α)) (h : assocFind k l = none) :
    assocFind k (assocUpdate k' f l) = none := by
  by_cases hk : k' = k
  · subst hk; rw [assocFind_update_self, h]; rfl
  · rw [assocFind_update_ne _ _ _ _ hk, h]

theorem assocFind_update_isSome {α : Type} (k k' : String) (f : α → α)
    (l : List (String × α)) (h : (assocFind k l).isSome) :
    (assocFind k (assocUpdate k' f l)).isSome := by
  by_cases hk : k' = k
  · subst hk; rw [assocFind_update_self]
    generalize assocFind _ l = o at h ⊢
    cases o <;> simp_all
  · rw [assocFind_update_ne _ _ _ _ hk]; exact h

theorem assocFind_map_isSome {α β : Type} (k : String) (g : α → β)
    (l : List (String × α)) :
    (assocFind k (l.map (fun p => (p.1, g p.2)))).isSome
      = (assocFind k l).isSome := by
  rw [assocFind_map]
  cases assocFind k l <;> rfl

theorem assocFind_map_none {α β : Type} (k : String) (g : α → β)
    (l : List (String × α)) (h : assocFind k l = none) :
    assocFind k (l.map (fun p => (p.1, g p.2))) = none := by
  rw [assocFind_map, h]; rfl

/-- When every sensor already sits at its spec default, the `reset_sensors`
pass leaves the sensor list unchanged. -/
theorem reset_pass_id (l : List (String × Sensor))
    (h : ∀ e ∈ l, (e : String × Sensor).2.node = e.2.specDefault) :
    l.map (fun p => (p.1, p.2.set_transformation_from_spec)) = l := by
  induction l with
  | nil => rfl
  | cons p rest ih =>
      have hp := h p (List.mem_cons_self _ _)
      have : p.2.set_transformation_from_spec = p.2 := by
        cases hsen : p.2 with
        | mk sd nd =>
            rw [hsen] at hp
            simp only [Sensor.set_transformation_from_spec]
            simp only at hp
            rw [hp]
      simp only [List.map_cons, this, ih (fun e he => h e (List.mem_cons_of_mem _ he))]

/-- Operation `get_state` only looks at the validity flag, the body transform and the
sensors. -/
theorem get_state_congr (a b : Agent) (hv : a.valid = b.valid)
    (hb : a.body = b.body) (hs : a.sensors = b.sensors) :
    get_state a = get_state b := by
  unfold get_state
  rw [hv, hb, hs]

theorem placeStepPoses_eq_coeffs (poses : List PoseObj) (pa : Nat) (c : List ℚ)
    (hr : (getPose poses pa).rotation = .coeffs c) :
    placeStepPoses poses pa = updIdx poses pa (convertPose (getPose poses pa)) := by
  unfold placeStepPoses; rw [hr]

theorem placeStepPoses_eq_quat (poses : List PoseObj) (pa : Nat) (q : Quat)
    (hr : (getPose poses pa).rotation = .quat q) :
    placeStepPoses poses pa = poses := by
  unfold placeStepPoses; rw [hr]

theorem placeStepPoses_length (poses : List PoseObj) (pa : Nat) :
    (placeStepPoses poses pa).length = poses.length := by
  cases hr : (getPose poses pa).rotation with
  | coeffs c => rw [placeStepPoses_eq_coeffs _ _ _ hr]; exact updIdx_length _ _ _
  | quat q => rw [placeStepPoses_eq_quat _ _ _ hr]

theorem getPose_placeStepPoses_ne (poses : List PoseObj) (pa j : Nat)
    (h : j ≠ pa) : getPose (placeStepPoses poses pa) j = getPose poses j := by
  cases hr : (getPose poses pa).rotation with
  | coeffs c =>
      rw [placeStepPoses_eq_coeffs _ _ _ hr]
      exact getD_updIdx_ne _ _ _ _ _ h
  | quat q => rw [placeStepPoses_eq_quat _ _ _ hr]

theorem getPose_placeStepPoses_self (poses : List PoseObj) (pa : Nat)
    (hpa : pa < poses.length) :
    getPose (placeStepPoses poses pa) pa = convertPose (getPose poses pa) := by
  cases hr : (getPose poses pa).rotation with
  | coeffs c =>
      rw [placeStepPoses_eq_coeffs _ _ _ hr]
      exact getD_updIdx_self _ _ _ _ hpa
  | quat q =>
      rw [placeStepPoses_eq_quat _ _ _ hr]
      exact (convertPose_of_quat _ _ hr).symm

/-- Keys the explicit-placement loop does not name are left untouched. -/
theorem placePass_find_of_notmem (p : Vec3) (r : Quat)
    (ss : List (String × Nat)) :
    ∀ (poses : List PoseObj) (sens : List (String × Sensor)) (k : String),
      k ∉ ss.map Prod.fst →
      assocFind k (placePass p r poses sens ss).sensors = assocFind k sens := by
  induction ss with
  | nil => intro poses sens k _; rfl
  | cons hd rest ih =>
      intro poses sens k hk
      obtain ⟨k', pa'⟩ := hd
      have hk1 : k' ≠ k := fun hc => hk (by simp [hc])
      have hk2 : k ∉ rest.map Prod.fst := fun hc => hk (by simp [hc])
      cases hfind : assocFind k' sens with
      | none => simp [placePass, hfind]
      | some s0 =>
          simp only [placePass, hfind]
          rw [ih _ _ _ hk2, assocFind_update_ne _ _ _ _ hk1]

/-- Pose addresses the explicit-placement loop does not name are left
untouched. -/
theorem placePass_poses_of_notmem (p : Vec3) (r : Quat)
    (ss : List (String × Nat)) :
    ∀ (poses : List PoseObj) (sens : List (String × Sensor)) (pa : Nat),
      pa ∉ ss.map Prod.snd →
      getPose (placePass p r poses sens ss).poses pa = getPose poses pa := by
  induction ss with
  | nil => intro poses sens pa _; rfl
  | cons hd rest ih =>
      intro poses sens pa hpa
      obtain ⟨k', pa'⟩ := hd
      have h1 : pa ≠ pa' := fun hc => hpa (by simp [hc])
      have h2 : pa ∉ rest.map Prod.snd := fun hc => hpa (by simp [hc])
      cases hfind : assocFind k' sens with
      | none => simp [placePass, hfind]
      | some s0 =>
          simp only [placePass, hfind]
          rw [ih _ _ _ h2, getPose_placeStepPoses_ne _ _ _ h1]

/-- When some named sensor is not attached, the explicit-placement loop
raises the unknown-sensor assertion. -/
theorem placePass_err_of_missing (p : Vec3) (r : Quat)
    (ss : List (String × Nat)) :
    ∀ (poses : List PoseObj) (sens : List (String × Sensor)),
      (∃ e ∈ ss, assocFind (e : String × Nat).1 sens = none) →
      (placePass p r poses sens ss).err = some .unknownSensor := by
  induction ss with
  | nil =>
      intro poses sens ⟨e, he, _⟩
      exact absurd he (List.not_mem_nil e)
  | cons hd rest ih =>
      intro poses sens ⟨e, he, hnone⟩
      obtain ⟨k', pa'⟩ := hd
      cases hfind : assocFind k' sens with
      | none => simp [placePass, hfind]
      | some s0 =>
          simp only [placePass, hfind]
          apply ih
          refine ⟨e, ?_, ?_⟩
          · rcases List.mem_cons.mp he with heq | hmem
            · exfalso
              rw [heq] at hnone
              simp only at hnone
              rw [hnone] at hfind
              exact Option.noConfusion hfind
            · exact hmem
          · exact assocFind_update_none _ _ _ _ hnone

/-- Each named and attached sensor's final node after the explicit-placement
loop, provided every named sensor is attached, expressed over the original
pose store. -/
theorem placePass_find_mem (p : Vec3) (r : Quat) (ss : List (String × Nat)) :
    ∀ (poses : List PoseObj) (sens : List (String × Sensor)) (k : String) (pa : Nat),
      (∀ e ∈ ss, (assocFind (e : String × Nat).1 sens).isSome) →
      (ss.map Prod.fst).Nodup → (ss.map Prod.snd).Nodup →
      (k, pa) ∈ ss →
      ∃ s0, assocFind k sens = some s0 ∧
        assocFind k (placePass p r poses sens ss).sensors =
          some { s0 with node := placedNode p r (convertPose (getPose poses pa)) } := by
  induction ss with
  | nil => intro poses sens k pa _ _ _ hmem; exact absurd hmem (List.not_mem_nil _)
  | cons hd rest ih =>
      intro poses sens k pa hnames hkeys haddrs hmem
      obtain ⟨k', pa'⟩ := hd
      obtain ⟨s0', hs0'⟩ :=
        Option.isSome_iff_exists.mp (hnames _ (List.mem_cons_self _ _))
      simp only [List.map_cons, List.nodup_cons] at hkeys haddrs
      simp only [placePass, hs0']
      rcases List.mem_cons.mp hmem with heq | hmem'
      · obtain ⟨rfl, rfl⟩ : k = k' ∧ pa = pa' :=
          ⟨congrArg Prod.fst heq, congrArg Prod.snd heq⟩
        refine ⟨s0', hs0', ?_⟩
        rw [placePass_find_of_notmem _ _ _ _ _ _ hkeys.1,
            assocFind_update_self, hs0']
        rfl
      · have hkne : k' ≠ k := by
          intro hc
          exact hkeys.1 (hc ▸ List.mem_map.mpr ⟨(k, pa), hmem', rfl⟩)
        have hpane : pa ≠ pa' := by
          intro hc
          exact haddrs.1 (hc ▸ List.mem_map.mpr ⟨(k, pa), hmem', rfl⟩)
        obtain ⟨s0, hfind0, hres⟩ := ih (placeStepPoses poses pa')
          (assocUpdate k'
            (fun s =>
              { s with node := placedNode p r (convertPose (getPose poses pa')) })
            sens) k pa
          (fun e he => assocFind_update_isSome _ _ _ _
            (hnames e (List.mem_cons_of_mem _ he)))
          hkeys.2 haddrs.2 hmem'
        refine ⟨s0, ?_, ?_⟩
        · rw [← assocFind_update_ne k k'
            (fun s =>
              { s with node := placedNode p r (convertPose (getPose poses pa')) })
            sens hkne]
          exact hfind0
        · rw [hres, getPose_placeStepPoses_ne _ _ _ hpane]

/-- When every named sensor is attached, the explicit-placement loop runs to
completion, converting each named pose's rotation in place. -/
theorem placePass_complete (p : Vec3) (r : Quat) (ss : List (String × Nat)) :
    ∀ (poses : List PoseObj) (sens : List (String × Sensor)),
      (∀ e ∈ ss, (assocFind (e : String × Nat).1 sens).isSome) →
      (ss.map Prod.snd).Nodup →
      (∀ e ∈ ss, (e : String × Nat).2 < poses.length) →
      (placePass p r poses sens ss).err = none ∧
      (placePass p r poses sens ss).poses.length = poses.length ∧
      ∀ e ∈ ss, getPose (placePass p r poses sens ss).poses (e : String × Nat).2
        = convertPose (getPose poses e.2) := by
  induction ss with
  | nil =>
      intro poses sens _ _ _
      exact ⟨rfl, rfl, fun e he => absurd he (List.not_mem_nil _)⟩
  | cons hd rest ih =>
      intro poses sens hnames haddrs hlen
      obtain ⟨k', pa'⟩ := hd
      obtain ⟨s0', hs0'⟩ :=
        Option.isSome_iff_exists.mp (hnames _ (List.mem_cons_self _ _))
      simp only [List.map_cons, List.nodup_cons] at haddrs
      simp only [placePass, hs0']
      obtain ⟨ihe, ihl, ihp⟩ := ih (placeStepPoses poses pa')
        (assocUpdate k'
          (fun s =>
            { s with node := placedNode p r (convertPose (getPose poses pa')) })
          sens)
        (fun e he => assocFind_update_isSome _ _ _ _
          (hnames e (List.mem_cons_of_mem _ he)))
        haddrs.2
        (fun e he => by
          rw [placeStepPoses_length]
          exact hlen e (List.mem_cons_of_mem _ he))
      refine ⟨ihe, ?_, ?_⟩
      · rw [ihl, placeStepPoses_length]
      · intro e he
        rcases List.mem_cons.mp he with heq | he'
        · subst heq
          rw [placePass_poses_of_notmem _ _ _ _ _ _ haddrs.1,
              getPose_placeStepPoses_self _ _ (hlen _ (List.mem_cons_self _ _))]
        · have hne : (e : String × Nat).2 ≠ pa' := by
            intro hc
            exact haddrs.1 (hc ▸ List.mem_map.mpr ⟨e, he', rfl⟩)
          rw [ihp e he', getPose_placeStepPoses_ne _ _ _ hne]

/-- Unfolding of `set_state` on a valid agent with
`infer_sensor_states = false`. -/
theorem set_state_noinfer_eq (h : Heap) (ag : Agent) (sa : Nat) (rs ii : Bool)
    (hv : ag.valid = true) :
    set_state h ag sa rs false ii =
      match (placePass (convertState (readState h sa)).position
          (asQuat (convertState (readState h sa)).rotation)
          (writeBackState h sa (readState h sa)).poses
          (if rs then
            ag.sensors.map (fun p => (p.1, p.2.set_transformation_from_spec))
          else ag.sensors)
          (convertState (readState h sa)).sensor_states).err with
      | some e =>
          ⟨{ writeBackState h sa (readState h sa) with
              poses := (placePass (convertState (readState h sa)).position
                (asQuat (convertState (readState h sa)).rotation)
                (writeBackState h sa (readState h sa)).poses
                (if rs then
                  ag.sensors.map (fun p => (p.1, p.2.set_transformation_from_spec))
                else ag.sensors)
                (convertState (readState h sa)).sensor_states).poses },
           { ag with
              body := NodeT.setRotation
                (NodeT.translate NodeT.reset (convertState (readState h sa)).position)
                (quat_to_magnum (asQuat (convertState (readState h sa)).rotation)),
              sensors := (placePass (convertState (readState h sa)).position
                (asQuat (convertState (readState h sa)).rotation)
                (writeBackState h sa (readState h sa)).poses
                (if rs then
                  ag.sensors.map (fun p => (p.1, p.2.set_transformation_from_spec))
                else ag.sensors)
                (convertState (readState h sa)).sensor_states).sensors },
           some e⟩
      | none =>
          ⟨{ writeBackState h sa (readState h sa) with
              poses := (placePass (convertState (readState h sa)).position
                (asQuat (convertState (readState h sa)).rotation)
                (writeBackState h sa (readState h sa)).poses
                (if rs then
                  ag.sensors.map (fun p => (p.1, p.2.set_transformation_from_spec))
                else ag.sensors)
                (convertState (readState h sa)).sensor_states).poses },
           { ag with
              body := NodeT.setRotation
                (NodeT.translate NodeT.reset (convertState (readState h sa)).position)
                (quat_to_magnum (asQuat (convertState (readState h sa)).rotation)),
              sensors := (placePass (convertState (readState h sa)).position
                (asQuat (convertState (readState h sa)).rotation)
                (writeBackState h sa (readState h sa)).poses
                (if rs then
                  ag.sensors.map (fun p => (p.1, p.2.set_transformation_from_spec))
                else ag.sensors)
                (convertState (readState h sa)).sensor_states).sensors,
              initial_state := if ii then some sa else ag.initial_state },
           none⟩ := by
  unfold set_state
  rw [if_neg (by simp [hv])]
  rfl

/-- Unfolding of `set_state` on a valid agent with
`infer_sensor_states = true`. -/
theorem set_state_infer_eq (h : Heap) (ag : Agent) (sa : Nat) (rs ii : Bool)
    (hv : ag.valid = true) :
    set_state h ag sa rs true ii =
      ⟨writeBackState h sa (readState h sa),
       { ag with
          body := NodeT.setRotation
            (NodeT.translate NodeT.reset (convertState (readState h sa)).position)
            (quat_to_magnum (asQuat (convertState (readState h sa)).rotation)),
          sensors := if rs then
              ag.sensors.map (fun p => (p.1, p.2.set_transformation_from_spec))
            else ag.sensors,
          initial_state := if ii then some sa else ag.initial_state },
       none⟩ := by
  unfold set_state
  rw [if_neg (by simp [hv])]
  rfl

/-! The claims. -/

/-- Claim C2: for every attached sensor, `get_state` reports the sensor's position
as the sensor node's absolute position and its rotation as the agent's base
rotation composed with the sensor node's local rotation, in that order; when
the sensor's local rotation is the identity, the reported rotation equals
the base rotation. -/
theorem get_state_sensor_pose (ag : Agent) (k : String) (sen : Sensor)
    (hv : ag.valid = true) (hs : assocFind k ag.sensors = some sen) :
    ∃ S, get_state ag = .ok S ∧
      assocFind k S.sensor_states = some
        { position := ag.body.translation +
            quat_rotate_vector ag.body.rotation sen.node.translation,
          rotation := Quat.mul ag.body.rotation sen.node.rotation } ∧
      (sen.node.rotation = Quat.one →
        assocFind k S.sensor_states = some
          { position := ag.body.translation +
              quat_rotate_vector ag.body.rotation sen.node.translation,
            rotation := ag.body.rotation }) := by
  have hok : get_state ag = .ok
      { position := ag.body.translation,
        rotation := quat_from_magnum ag.body.rotation,
        velocity := Vec3.zero, angular_velocity := Vec3.zero,
        force := Vec3.zero, torque := Vec3.zero,
        sensor_states := ag.sensors.map (fun p =>
          (p.1, ({ position := ag.body.applyTo p.2.node.translation,
                   rotation := quat_from_magnum
                     (Quat.mul ag.body.rotation p.2.node.rotation) } : PoseV))) } := by
    unfold get_state
    rw [if_neg (by simp [hv])]
  have hfind : assocFind k (ag.sensors.map (fun p =>
      (p.1, ({ position := ag.body.applyTo p.2.node.translation,
               rotation := quat_from_magnum
                 (Quat.mul ag.body.rotation p.2.node.rotation) } : PoseV)))) =
      some { position := ag.body.translation +
               quat_rotate_vector ag.body.rotation sen.node.translation,
             rotation := Quat.mul ag.body.rotation sen.node.rotation } := by
    rw [assocFind_map k (fun s : Sensor =>
        ({ position := ag.body.applyTo s.node.translation,
           rotation := quat_from_magnum
             (Quat.mul ag.body.rotation s.node.rotation) } : PoseV)), hs]
    rfl
  refine ⟨_, hok, hfind, fun hone => ?_⟩
  rw [hfind, show Quat.mul ag.body.rotation sen.node.rotation = ag.body.rotation
    from by rw [hone, Quat.mul_one]]

/-- Witness for C2 at a concrete agent: one sensor named rgb attached with
identity local rotation. -/
theorem get_state_sensor_pose_witness :
    ∃ S, get_state exAgent = .ok S ∧
      assocFind "rgb" S.sensor_states = some
        { position := exAgent.body.translation +
            quat_rotate_vector exAgent.body.rotation exSensor.node.translation,
          rotation := Quat.mul exAgent.body.rotation exSensor.node.rotation } ∧
      (exSensor.node.rotation = Quat.one →
        assocFind "rgb" S.sensor_states = some
          { position := exAgent.body.translation +
              quat_rotate_vector exAgent.body.rotation exSensor.node.translation,
            rotation := exAgent.body.rotation }) :=
  get_state_sensor_pose exAgent "rgb" exSensor rfl rfl

/-- Claim C5: `act` with an action identifier absent from the current action space
raises the unknown-action assertion and performs no mutation, whatever the
dispatch body would do. -/
theorem act_unknown_action (dispatch : Agent → ActionSpec → Agent × Bool)
    (ag : Agent) (action_id : String) (hv : ag.valid = true)
    (hmiss : assocFind action_id ag.agent_config.action_space = none) :
    act dispatch ag action_id = ⟨ag, none, some .unknownAction⟩ := by
  unfold act
  rw [if_neg (by simp [hv]), hmiss]

/-- Witness for C5: a jump action against the default action space. -/
theorem act_unknown_action_witness :
    act (fun a _ => (a, false)) exAgent "jump"
      = ⟨exAgent, none, some .unknownAction⟩ :=
  act_unknown_action (fun a _ => (a, false)) exAgent "jump" rfl rfl

/-- Claim C6: every operation touching the body node (`reconfigure`, `act`,
`get_state`, `set_state`) checks validity first and, when the owning
hierarchy is gone, raises the invalid-object error with no mutation of the
agent or the heap. -/
theorem invalid_object_guard (ag : Agent) (hv : ag.valid = false) :
    get_state ag = .error .invalidObject ∧
    (∀ dispatch action_id,
      act dispatch ag action_id = ⟨ag, none, some .invalidObject⟩) ∧
    (∀ cfg rs, reconfigure ag cfg rs = ⟨ag, some .invalidObject⟩) ∧
    (∀ h sa rs infer ii,
      set_state h ag sa rs infer ii = ⟨h, ag, some .invalidObject⟩) := by
  refine ⟨?_, fun dispatch action_id => ?_, fun cfg rs => ?_,
    fun h sa rs infer ii => ?_⟩
  · unfold get_state; rw [if_pos hv]
  · unfold act; rw [if_pos hv]
  · unfold reconfigure; rw [if_pos hv]
  · unfold set_state; rw [if_pos hv]

/-- Witness for C6 at a concrete torn-down agent. -/
theorem invalid_object_guard_witness :
    get_state exInvalidAgent = .error .invalidObject ∧
    act (fun a _ => (a, false)) exInvalidAgent "move_forward"
      = ⟨exInvalidAgent, none, some .invalidObject⟩ ∧
    reconfigure exInvalidAgent exConfig true
      = ⟨exInvalidAgent, some .invalidObject⟩ ∧
    set_state exHeap exInvalidAgent 0 true true false
      = ⟨exHeap, exInvalidAgent, some .invalidObject⟩ := by
  obtain ⟨h1, h2, h3, h4⟩ := invalid_object_guard exInvalidAgent rfl
  exact ⟨h1, h2 _ _, h3 _ _, h4 _ _ _ _ _⟩

/-- Claim C8: `reconfigure` with `reconfigure_sensors = false` replaces the stored
configuration while leaving the sensors untouched, and with either flag
value never resets the base pose. -/
theorem reconfigure_preserves (ag : Agent) (cfg : AgentConfiguration)
    (hv : ag.valid = true) :
    (reconfigure ag cfg false).agent.agent_config = cfg ∧
    (reconfigure ag cfg false).agent.sensors = ag.sensors ∧
    (reconfigure ag cfg false).agent.body = ag.body ∧
    (reconfigure ag cfg false).err = none ∧
    (∀ rs, (reconfigure ag cfg rs).agent.body = ag.body) := by
  have hne : ¬ (ag.valid = false) := by simp [hv]
  refine ⟨?_, ?_, ?_, ?_, fun rs => ?_⟩
  · unfold reconfigure; rw [if_neg hne]; rfl
  · unfold reconfigure; rw [if_neg hne]; rfl
  · unfold reconfigure; rw [if_neg hne]; rfl
  · unfold reconfigure; rw [if_neg hne]; rfl
  · cases rs <;> (unfold reconfigure; rw [if_neg hne]; rfl)

/-- Witness for C8 at a concrete agent and a fresh configuration. -/
theorem reconfigure_preserves_witness :
    (reconfigure exAgent exConfig false).agent.agent_config = exConfig ∧
    (reconfigure exAgent exConfig false).agent.sensors = exAgent.sensors ∧
    (reconfigure exAgent exConfig false).agent.body = exAgent.body ∧
    (reconfigure exAgent exConfig false).err = none ∧
    (reconfigure exAgent exConfig true).agent.body = exAgent.body := by
  obtain ⟨h1, h2, h3, h4, h5⟩ := reconfigure_preserves exAgent exConfig rfl
  exact ⟨h1, h2, h3, h4, h5 true⟩

theorem convertState_of_quat (st : StateObj) (q : Quat)
    (hr : st.rotation = .quat q) : convertState st = st := by
  unfold convertState; rw [hr]

theorem convertState_of_coeffs (st : StateObj) (c : List ℚ)
    (hr : st.rotation = .coeffs c) :
    convertState st = { st with rotation := .quat (quat_from_coeffs c) } := by
  unfold convertState; rw [hr]

theorem writeBackState_of_quat (h : Heap) (sa : Nat) (st0 : StateObj)
    (q : Quat) (hr : st0.rotation = .quat q) : writeBackState h sa st0 = h := by
  unfold writeBackState; rw [hr]

theorem writeBackState_of_coeffs (h : Heap) (sa : Nat) (st0 : StateObj)
    (c : List ℚ) (hr : st0.rotation = .coeffs c) :
    writeBackState h sa st0 = writeState h sa (convertState st0) := by
  unfold writeBackState; rw [hr]

/-- The `reset_sensors` pass does not change which names are attached. -/
theorem assocFind_reset_isSome (ag : Agent) (rs : Bool) (k0 : String) :
    (assocFind k0 (if rs = true then
        ag.sensors.map (fun p => (p.1, p.2.set_transformation_from_spec))
      else ag.sensors)).isSome = (assocFind k0 ag.sensors).isSome := by
  cases rs with
  | false => rw [if_neg (by simp)]
  | true => rw [if_pos rfl, assocFind_map_isSome]

/-- In the `infer_sensor_states = false` case the final sensor list is the
placement loop's output, whether or not the loop raised. -/
theorem set_state_noinfer_sensors (h : Heap) (ag : Agent) (sa : Nat)
    (rs ii : Bool) (hv : ag.valid = true) :
    (set_state h ag sa rs false ii).agent.sensors =
      (placePass (convertState (readState h sa)).position
        (asQuat (convertState (readState h sa)).rotation)
        (writeBackState h sa (readState h sa)).poses
        (if rs = true then
          ag.sensors.map (fun p => (p.1, p.2.set_transformation_from_spec))
        else ag.sensors)
        (convertState (readState h sa)).sensor_states).sensors := by
  rw [set_state_noinfer_eq h ag sa rs ii hv]
  split <;> rfl

/-- In the `infer_sensor_states = false` case the final heap keeps the
written-back state store and takes the placement loop's pose store, whether
or not the loop raised. -/
theorem set_state_noinfer_heap (h : Heap) (ag : Agent) (sa : Nat)
    (rs ii : Bool) (hv : ag.valid = true) :
    (set_state h ag sa rs false ii).heap =
      ⟨(writeBackState h sa (readState h sa)).states,
       (placePass (convertState (readState h sa)).position
        (asQuat (convertState (readState h sa)).rotation)
        (writeBackState h sa (readState h sa)).poses
        (if rs = true then
          ag.sensors.map (fun p => (p.1, p.2.set_transformation_from_spec))
        else ag.sensors)
        (convertState (readState h sa)).sensor_states).poses⟩ := by
  rw [set_state_noinfer_eq h ag sa rs ii hv]
  split <;> rfl

/-- On a valid agent, `set_state` always leaves the body node at the
reset-translate-rotate pose of the (converted) argument, whatever the flags
and whatever the sensor placement does. -/
theorem set_state_body (h : Heap) (ag : Agent) (sa : Nat)
    (rs infer ii : Bool) (hv : ag.valid = true) :
    (set_state h ag sa rs infer ii).agent.body =
      NodeT.setRotation
        (NodeT.translate NodeT.reset (convertState (readState h sa)).position)
        (quat_to_magnum (asQuat (convertState (readState h sa)).rotation)) := by
  cases infer with
  | true => rw [set_state_infer_eq h ag sa rs ii hv]
  | false =>
      rw [set_state_noinfer_eq h ag sa rs ii hv]
      split <;> rfl

/-- Claim C7: an `AgentState` rotation arriving as a raw coefficient sequence is
converted to a unit quaternion before being applied to the body node (the
exact-square-root hypotheses stand in for the floating-point `sqrt`). -/
theorem set_state_normalizes_rotation (h : Heap) (ag : Agent) (sa : Nat)
    (rs infer ii : Bool) (c : List ℚ)
    (hv : ag.valid = true)
    (hrot : (readState h sa).rotation = .coeffs c)
    (hsq : ratSqrt (Quat.normSq (quatOfCoeffs c))
        * ratSqrt (Quat.normSq (quatOfCoeffs c)) = Quat.normSq (quatOfCoeffs c))
    (hnz : Quat.normSq (quatOfCoeffs c) ≠ 0) :
    Quat.normSq ((set_state h ag sa rs infer ii).agent.body.rotation) = 1 := by
  rw [set_state_body h ag sa rs infer ii hv]
  show Quat.normSq (asQuat (convertState (readState h sa)).rotation) = 1
  rw [asQuat_convertState, hrot]
  show Quat.normSq (quat_from_coeffs c) = 1
  unfold quat_from_coeffs
  rw [Quat.normSq_scale, div_mul_div_comm, one_mul, hsq]
  exact one_div_mul_cancel hnz

/-- A sample heap whose state object carries its rotation as a coefficient
list of norm 2. -/
def exHeap7 : Heap :=
  ⟨[⟨Vec3.zero, .coeffs [0, 0, 0, 2], Vec3.zero, Vec3.zero, Vec3.zero,
     Vec3.zero, []⟩], []⟩

/-- Witness for C7 at the coefficient list `[0, 0, 0, 2]`. -/
theorem set_state_normalizes_rotation_witness :
    Quat.normSq ((set_state exHeap7 exAgent 0 true true false).agent.body.rotation)
      = 1 :=
  set_state_normalizes_rotation exHeap7 exAgent 0 true true false [0, 0, 0, 2]
    rfl rfl
    (by norm_num [ratSqrt, natSqrt, quatOfCoeffs, Quat.normSq,
      List.range, List.range.loop, List.filter])
    (by norm_num [quatOfCoeffs, Quat.normSq])

/-- Claim C9, counterexample: two independently default-constructed `AgentState`
instances share one `position` array (the class-body default, evaluated
once), so an in-place write through the first is visible through the second,
refuting per-instance independence of the defaults. -/
theorem agent_state_default_shared_cex :
    ¬ (ArrayHeap.read
        (ArrayHeap.write moduleInit.heap
          (mkAgentStateDefault moduleInit 0).1.position ⟨1, 2, 3⟩)
        (mkAgentStateDefault moduleInit 1).1.position
      = ArrayHeap.read moduleInit.heap
          (mkAgentStateDefault moduleInit 1).1.position) := by
  norm_num [moduleInit, mkAgentStateDefault, ArrayHeap.read, ArrayHeap.write,
    ArrayHeap.alloc, updIdx, Vec3.zero]

/-- Claim C9, amended: default-constructed instances share the class's one default
position array — the same address, and writes through one are read through
the other — while `sensor_states`, declared with a factory, is fresh per
instance; the two classes have distinct default arrays of their own. -/
theorem agent_state_default_shared :
    (mkAgentStateDefault moduleInit 0).1.position
      = (mkAgentStateDefault moduleInit
          (mkAgentStateDefault moduleInit 0).2).1.position ∧
    (mkAgentStateDefault moduleInit 0).1.sensor_states
      ≠ (mkAgentStateDefault moduleInit
          (mkAgentStateDefault moduleInit 0).2).1.sensor_states ∧
    ArrayHeap.read
      (ArrayHeap.write moduleInit.heap
        (mkAgentStateDefault moduleInit 0).1.position ⟨1, 2, 3⟩)
      (mkAgentStateDefault moduleInit
        (mkAgentStateDefault moduleInit 0).2).1.position = ⟨1, 2, 3⟩ ∧
    (mkSixDOFPoseDefault moduleInit).position
      ≠ (mkAgentStateDefault moduleInit 0).1.position := by
  refine ⟨rfl, by norm_num [mkAgentStateDefault], ?_, ?_⟩
  · norm_num [moduleInit, mkAgentStateDefault, ArrayHeap.read, ArrayHeap.write,
      ArrayHeap.alloc, updIdx]
  · norm_num [moduleInit, mkSixDOFPoseDefault, mkAgentStateDefault,
      ArrayHeap.alloc]

/-- Claim C4: `set_state` with `infer_sensor_states = false` and an unattached
name in `sensor_states` raises the unknown-sensor assertion, and the
base-pose mutation already performed (reset, translate, set rotation) is not
rolled back. -/
theorem set_state_unknown_sensor (h : Heap) (ag : Agent) (sa : Nat)
    (rs ii : Bool) (st : StateObj) (k : String) (pa : Nat)
    (hv : ag.valid = true) (hst : readState h sa = st)
    (hmem : (k, pa) ∈ st.sensor_states)
    (hmiss : assocFind k ag.sensors = none) :
    (set_state h ag sa rs false ii).err = some .unknownSensor ∧
    (set_state h ag sa rs false ii).agent.body =
      NodeT.setRotation (NodeT.translate NodeT.reset st.position)
        (asQuat st.rotation) := by
  constructor
  · rw [set_state_noinfer_eq h ag sa rs ii hv, hst]
    have herr : (placePass (convertState st).position
        (asQuat (convertState st).rotation)
        (writeBackState h sa st).poses
        (if rs = true then
          ag.sensors.map (fun p => (p.1, p.2.set_transformation_from_spec))
        else ag.sensors)
        (convertState st).sensor_states).err = some .unknownSensor := by
      apply placePass_err_of_missing
      refine ⟨(k, pa), ?_, ?_⟩
      · rw [convertState_sensor_states]; exact hmem
      · cases rs with
        | true => rw [if_pos rfl]; exact assocFind_map_none _ _ _ hmiss
        | false => rw [if_neg (by simp)]; exact hmiss
    rw [herr]
  · rw [set_state_body h ag sa rs false ii hv, hst, convertState_position,
      asQuat_convertState]
    rfl

/-- A live sample agent with only a cam sensor attached. -/
def cexAgent1 : Agent :=
  ⟨true, NodeT.reset, [("cam", ⟨NodeT.reset, NodeT.reset⟩)], exConfig, none⟩

/-- A sample heap whose state object names an unattached ghost sensor before
the attached cam sensor. -/
def cexHeap1 : Heap :=
  ⟨[⟨Vec3.zero, .quat Quat.one, Vec3.zero, Vec3.zero, Vec3.zero, Vec3.zero,
     [("ghost", 0), ("cam", 1)]⟩],
   [⟨⟨7, 7, 7⟩, .quat Quat.one⟩, ⟨⟨5, 5, 5⟩, .quat Quat.one⟩]⟩

/-- Witness for C4: the ghost sensor is not attached; the assertion fires
and the base pose keeps the new value. -/
theorem set_state_unknown_sensor_witness :
    (set_state cexHeap1 cexAgent1 0 false false false).err
        = some .unknownSensor ∧
    (set_state cexHeap1 cexAgent1 0 false false false).agent.body =
      NodeT.setRotation
        (NodeT.translate NodeT.reset (readState cexHeap1 0).position)
        (asQuat (readState cexHeap1 0).rotation) :=
  set_state_unknown_sensor cexHeap1 cexAgent1 0 false false
    (readState cexHeap1 0) "ghost" 0 rfl rfl
    (by simp [readState, cexHeap1])
    rfl

/-- Claim C1, amended: with `infer_sensor_states = false` and every name in
`state.sensor_states` currently attached, each named sensor node's transform
is set by reset to identity, translate by the inverse base rotation applied
to (sensor position minus base position), then rotation set to the inverse
base rotation composed with the (converted) sensor rotation; the pass runs
for either value of `reset_sensors`, overwriting any sensor named in the
map. -/
theorem set_state_explicit_placement (h : Heap) (ag : Agent) (sa : Nat)
    (rs ii : Bool) (st : StateObj) (k : String) (pa : Nat)
    (hv : ag.valid = true)
    (hst : readState h sa = st)
    (hnames : ∀ e ∈ st.sensor_states,
      (assocFind (e : String × Nat).1 ag.sensors).isSome)
    (hkeys : (st.sensor_states.map Prod.fst).Nodup)
    (haddrs : (st.sensor_states.map Prod.snd).Nodup)
    (hmem : (k, pa) ∈ st.sensor_states) :
    ∃ s', assocFind k (set_state h ag sa rs false ii).agent.sensors = some s' ∧
      s'.node = NodeT.setRotation
        (NodeT.translate NodeT.reset
          (quat_rotate_vector (Quat.inverse (asQuat st.rotation))
            ((convertPose (getPose h.poses pa)).position - st.position)))
        (Quat.mul (Quat.inverse (asQuat st.rotation))
          (asQuat (convertPose (getPose h.poses pa)).rotation)) := by
  rw [set_state_noinfer_sensors h ag sa rs ii hv, hst]
  obtain ⟨s0, hs0, hres⟩ := placePass_find_mem
    (convertState st).position (asQuat (convertState st).rotation)
    (convertState st).sensor_states
    (writeBackState h sa st).poses
    (if rs = true then
      ag.sensors.map (fun p => (p.1, p.2.set_transformation_from_spec))
    else ag.sensors)
    k pa
    (fun e he => by
      rw [assocFind_reset_isSome]
      exact hnames e (by rwa [convertState_sensor_states] at he))
    (by rw [convertState_sensor_states]; exact hkeys)
    (by rw [convertState_sensor_states]; exact haddrs)
    (by rw [convertState_sensor_states]; exact hmem)
  refine ⟨_, hres, ?_⟩
  show placedNode (convertState st).position
      (asQuat (convertState st).rotation)
      (convertPose (getPose (writeBackState h sa st).poses pa)) = _
  rw [writeBackState_poses, convertState_position, asQuat_convertState]
  rfl

/-- A sample heap with one state object naming only the cam sensor, whose
pose sits at address 0. -/
def exHeapC1 : Heap :=
  ⟨[⟨Vec3.zero, .quat Quat.one, Vec3.zero, Vec3.zero, Vec3.zero, Vec3.zero,
     [("cam", 0)]⟩],
   [⟨⟨1, 2, 3⟩, .quat Quat.one⟩]⟩

/-- Witness for the amended C1: the cam sensor is attached and gets the
claimed transform even with `reset_sensors = true`. -/
theorem set_state_explicit_placement_witness :
    ∃ s', assocFind "cam"
        (set_state exHeapC1 cexAgent1 0 true false false).agent.sensors
        = some s' ∧
      s'.node = NodeT.setRotation
        (NodeT.translate NodeT.reset
          (quat_rotate_vector
            (Quat.inverse (asQuat (readState exHeapC1 0).rotation))
            ((convertPose (getPose exHeapC1.poses 0)).position
              - (readState exHeapC1 0).position)))
        (Quat.mul (Quat.inverse (asQuat (readState exHeapC1 0).rotation))
          (asQuat (convertPose (getPose exHeapC1.poses 0)).rotation)) :=
  set_state_explicit_placement exHeapC1 cexAgent1 0 true false
    (readState exHeapC1 0) "cam" 0 rfl rfl
    (by simp [readState, exHeapC1, cexAgent1, assocFind])
    (by simp [readState, exHeapC1])
    (by simp [readState, exHeapC1])
    (by simp [readState, exHeapC1])

/-- Claim C1, counterexample: as stated the claim fails when the map also names an
unattached sensor ordered first: the loop aborts at ghost, so the attached
cam sensor, although named in the map, keeps its old transform instead of
the claimed one. -/
theorem set_state_explicit_placement_cex :
    (assocFind "cam"
        (set_state cexHeap1 cexAgent1 0 false false false).agent.sensors).map
        Sensor.node
      ≠ some (NodeT.setRotation
          (NodeT.translate NodeT.reset
            (quat_rotate_vector
              (Quat.inverse (asQuat (readState cexHeap1 0).rotation))
              ((convertPose (getPose cexHeap1.poses 1)).position
                - (readState cexHeap1 0).position)))
          (Quat.mul (Quat.inverse (asQuat (readState cexHeap1 0).rotation))
            (asQuat (convertPose (getPose cexHeap1.poses 1)).rotation))) := by
  have hL : (assocFind "cam"
      (set_state cexHeap1 cexAgent1 0 false false false).agent.sensors).map
      Sensor.node = some NodeT.reset := rfl
  rw [hL]
  norm_num [readState, cexHeap1, getPose, convertPose, asQuat, NodeT.reset,
    NodeT.setRotation, NodeT.translate, quat_rotate_vector, quat_to_magnum,
    Quat.inverse, Quat.conj, Quat.normSq, Quat.scale, Quat.mul, Quat.one,
    Vec3.zero, Vec3.add_def, Vec3.sub_def]

/-- Claim C3, amended: `set_state (get_state ())` with the default flags reproduces
the base pose and the sensor poses exactly, provided every attached sensor
sits at its configured default transform (the default `reset_sensors = true`
snaps sensors back to their spec defaults, so a sensor moved off its default
is not reproduced). -/
theorem set_get_state_idempotent (ag : Agent) (S : AgentStateV)
    (hv : ag.valid = true)
    (hdef : ∀ e ∈ ag.sensors, (e : String × Sensor).2.node = e.2.specDefault)
    (hS : get_state ag = .ok S) :
    get_state
        (set_state (allocState S).1 ag (allocState S).2 true true false).agent
      = .ok S := by
  have hok : get_state ag = .ok
      { position := ag.body.translation,
        rotation := quat_from_magnum ag.body.rotation,
        velocity := Vec3.zero, angular_velocity := Vec3.zero,
        force := Vec3.zero, torque := Vec3.zero,
        sensor_states := ag.sensors.map (fun p =>
          (p.1, ({ position := ag.body.applyTo p.2.node.translation,
                   rotation := quat_from_magnum
                     (Quat.mul ag.body.rotation p.2.node.rotation) } : PoseV))) } := by
    unfold get_state
    rw [if_neg (by simp [hv])]
  have hS' := hS
  rw [hok] at hS'
  injection hS' with hSeq
  have hpos : S.position = ag.body.translation :=
    (congrArg AgentStateV.position hSeq).symm
  have hrot2 : S.rotation = ag.body.rotation :=
    (congrArg AgentStateV.rotation hSeq).symm
  rw [set_state_infer_eq (allocState S).1 ag (allocState S).2 true false hv]
  have hread : readState (allocState S).1 (allocState S).2 =
      ⟨S.position, .quat S.rotation, S.velocity, S.angular_velocity, S.force,
       S.torque, S.sensor_states.enum.map (fun p => (p.2.1, p.1))⟩ := rfl
  refine (get_state_congr _ ag ?_ ?_ ?_).trans hS
  · rfl
  · show NodeT.setRotation
        (NodeT.translate NodeT.reset
          (convertState (readState (allocState S).1 (allocState S).2)).position)
        (quat_to_magnum
          (asQuat
            (convertState (readState (allocState S).1 (allocState S).2)).rotation))
      = ag.body
    rw [hread, convertState_of_quat _ S.rotation rfl]
    show NodeT.setRotation (NodeT.translate NodeT.reset S.position) S.rotation
      = ag.body
    rw [hpos, hrot2]
    show (⟨Vec3.zero + ag.body.translation, ag.body.rotation⟩ : NodeT) = ag.body
    rw [Vec3.zero_add]
  · show (if true = true then
        ag.sensors.map (fun p => (p.1, p.2.set_transformation_from_spec))
      else ag.sensors) = ag.sensors
    rw [if_pos rfl, reset_pass_id _ hdef]

/-- The state `get_state` reads off `exAgent`. -/
def exS : AgentStateV :=
  ⟨Vec3.zero, Quat.one, Vec3.zero, Vec3.zero, Vec3.zero, Vec3.zero,
   [("rgb", ⟨⟨0, 3/2, 0⟩, Quat.one⟩)]⟩

/-- Witness for the amended C3 at a concrete agent whose sensor sits at its
default transform. -/
theorem set_get_state_idempotent_witness :
    get_state
        (set_state (allocState exS).1 exAgent (allocState exS).2
          true true false).agent
      = .ok exS :=
  set_get_state_idempotent exAgent exS rfl
    (by simp [exAgent, exSensor])
    (by norm_num [get_state, exAgent, exConfig, exSensor, exS, NodeT.applyTo,
      NodeT.reset, quat_rotate_vector, quat_from_magnum, Quat.mul,
      Quat.inverse, Quat.conj, Quat.normSq, Quat.scale, Quat.one, Vec3.zero,
      Vec3.add_def])

/-- A sample agent whose cam sensor has been moved off its configured
default transform. -/
def cAg3 : Agent :=
  ⟨true, NodeT.reset,
   [("cam", ⟨NodeT.reset, ⟨⟨0, 1, 0⟩, Quat.one⟩⟩)], exConfig, none⟩

/-- The state `get_state` reads off `cAg3`. -/
def cS3 : AgentStateV :=
  ⟨Vec3.zero, Quat.one, Vec3.zero, Vec3.zero, Vec3.zero, Vec3.zero,
   [("cam", ⟨⟨0, 1, 0⟩, Quat.one⟩)]⟩

/-- Claim C3, counterexample: with a sensor moved off its spec default,
`set_state (get_state ())` with the default flags resets the sensor to the
default, so the reapplied state does not reproduce the sensor pose just
read. -/
theorem set_get_state_idempotent_cex :
    get_state cAg3 = .ok cS3 ∧
    get_state
        (set_state (allocState cS3).1 cAg3 (allocState cS3).2
          true true false).agent
      ≠ .ok cS3 := by
  constructor
  · norm_num [get_state, cAg3, exConfig, cS3, NodeT.applyTo, NodeT.reset,
      quat_rotate_vector, quat_from_magnum, Quat.mul, Quat.inverse,
      Quat.conj, Quat.normSq, Quat.scale, Quat.one, Vec3.zero, Vec3.add_def]
  · rw [set_state_infer_eq (allocState cS3).1 cAg3 (allocState cS3).2
      true false rfl]
    norm_num [get_state, cAg3, cS3, exConfig, readState, allocState,
      convertState, Sensor.set_transformation_from_spec, NodeT.applyTo,
      NodeT.reset, NodeT.setRotation, NodeT.translate, quat_rotate_vector,
      quat_from_magnum, quat_to_magnum, asQuat, Quat.mul, Quat.inverse,
      Quat.conj, Quat.normSq, Quat.scale, Quat.one, Vec3.zero, Vec3.add_def]

/-- Claim C10: `set_state` mutates its argument: the state object's rotation is
overwritten in place with the converted quaternion when a coefficient list
is passed; each named sensor pose's rotation is converted in place; and with
`is_initial` the passed-in object is recorded by reference (its address),
so a later write through the caller's reference is what the recorded initial
state reads back. -/
theorem set_state_mutates_argument (h : Heap) (ag : Agent) (sa : Nat)
    (rs : Bool) (st : StateObj) (c : List ℚ)
    (hv : ag.valid = true)
    (hsa : sa < h.states.length)
    (hst : readState h sa = st)
    (hrot : st.rotation = .coeffs c)
    (hnames : ∀ e ∈ st.sensor_states,
      (assocFind (e : String × Nat).1 ag.sensors).isSome)
    (haddrs : (st.sensor_states.map Prod.snd).Nodup)
    (hlen : ∀ e ∈ st.sensor_states, (e : String × Nat).2 < h.poses.length) :
    (readState (set_state h ag sa rs false true).heap sa).rotation
        = .quat (quat_from_coeffs c) ∧
    (∀ e ∈ st.sensor_states,
      getPose (set_state h ag sa rs false true).heap.poses
          (e : String × Nat).2
        = convertPose (getPose h.poses e.2)) ∧
    (set_state h ag sa rs false true).agent.initial_state = some sa ∧
    (∀ st2 : StateObj,
      ((set_state h ag sa rs false true).agent.initial_state).map
          (fun a =>
            readState (writeState (set_state h ag sa rs false true).heap sa st2) a)
        = some st2) := by
  obtain ⟨herr, hplen, hpp⟩ := placePass_complete
    (convertState st).position (asQuat (convertState st).rotation)
    (convertState st).sensor_states
    (writeBackState h sa st).poses
    (if rs = true then
      ag.sensors.map (fun p => (p.1, p.2.set_transformation_from_spec))
    else ag.sensors)
    (fun e he => by
      rw [assocFind_reset_isSome]
      exact hnames e (by rwa [convertState_sensor_states] at he))
    (by rw [convertState_sensor_states]; exact haddrs)
    (fun e he => by
      rw [writeBackState_poses]
      exact hlen e (by rwa [convertState_sensor_states] at he))
  have hheap : (set_state h ag sa rs false true).heap =
      ⟨(writeBackState h sa st).states,
       (placePass (convertState st).position
        (asQuat (convertState st).rotation)
        (writeBackState h sa st).poses
        (if rs = true then
          ag.sensors.map (fun p => (p.1, p.2.set_transformation_from_spec))
        else ag.sensors)
        (convertState st).sensor_states).poses⟩ := by
    rw [set_state_noinfer_heap h ag sa rs true hv, hst]
  have hstates : (writeBackState h sa st).states
      = updIdx h.states sa (convertState st) := by
    rw [writeBackState_of_coeffs h sa st c hrot]; rfl
  have hinit : (set_state h ag sa rs false true).agent.initial_state
      = some sa := by
    rw [set_state_noinfer_eq h ag sa rs true hv, hst, herr]
    rfl
  refine ⟨?_, ?_, hinit, ?_⟩
  · rw [hheap]
    show ((writeBackState h sa st).states.getD sa defaultStateObj).rotation
      = .quat (quat_from_coeffs c)
    rw [hstates, getD_updIdx_self _ _ _ _ hsa,
      convertState_of_coeffs st c hrot]
  · intro e he
    rw [hheap]
    exact (hpp e (by rw [convertState_sensor_states]; exact he)).trans
      (by rw [writeBackState_poses])
  · intro st2
    rw [hinit]
    show some (readState
      (writeState (set_state h ag sa rs false true).heap sa st2) sa) = some st2
    congr 1
    rw [hheap]
    show (updIdx (writeBackState h sa st).states sa st2).getD sa defaultStateObj
      = st2
    apply getD_updIdx_self
    rw [hstates, updIdx_length]
    exact hsa

/-- A sample heap whose state object and named sensor pose both carry their
rotations as coefficient lists. -/
def exHeap10 : Heap :=
  ⟨[⟨Vec3.zero, .coeffs [0, 0, 0, 2], Vec3.zero, Vec3.zero, Vec3.zero,
     Vec3.zero, [("cam", 0)]⟩],
   [⟨⟨1, 0, 0⟩, .coeffs [0, 0, 0, 3]⟩]⟩

/-- Witness for C10 at a concrete heap and agent. -/
theorem set_state_mutates_argument_witness :
    (readState (set_state exHeap10 cexAgent1 0 true false true).heap 0).rotation
        = .quat (quat_from_coeffs [0, 0, 0, 2]) ∧
    getPose (set_state exHeap10 cexAgent1 0 true false true).heap.poses 0
        = convertPose (getPose exHeap10.poses 0) ∧
    (set_state exHeap10 cexAgent1 0 true false true).agent.initial_state
        = some 0 ∧
    ((set_state exHeap10 cexAgent1 0 true false true).agent.initial_state).map
        (fun a => readState
          (writeState (set_state exHeap10 cexAgent1 0 true false true).heap 0
            defaultStateObj) a)
      = some defaultStateObj := by
  obtain ⟨h1, h2, h3, h4⟩ := set_state_mutates_argument exHeap10 cexAgent1 0
    true (readState exHeap10 0) [0, 0, 0, 2] rfl
    (by decide) rfl rfl
    (by decide)
    (by decide)
    (by decide)
  exact ⟨h1, h2 ("cam", 0) (by decide), h3, h4 defaultStateObj⟩

end HabitatAgent
